import Mathlib

set_option maxHeartbeats 1000000
set_option maxRecDepth 100000

namespace SowToProposal

/-- A decoded JSON value, as produced by Python's json.loads: null, booleans,
numbers, strings, arrays, and objects (Python dicts, modelled as ordered
association lists, matching dict insertion order). -/
inductive JsonValue : Type where
  | null : JsonValue
  | bool (b : Bool) : JsonValue
  | num (n : Int) : JsonValue
  | str (s : String) : JsonValue
  | arr (items : List JsonValue) : JsonValue
  | obj (fields : List (String × JsonValue)) : JsonValue

/-- A Python dict with string keys, in insertion order. -/
abbrev Dict := List (String × JsonValue)

/-- Python truthiness of a decoded JSON value (bool(v)). -/
def truthy : JsonValue → Bool
  | .null => false
  | .bool b => b
  | .num n => n != 0
  | .str s => s != ""
  | .arr items => !items.isEmpty
  | .obj fields => !fields.isEmpty

/-- Python truthiness of a dict.get result (None is falsy). -/
def truthyOpt : Option JsonValue → Bool
  | none => false
  | some v => truthy v

/-- Python `not x` on a dict.get result: true when the key is absent (None)
or the stored value is falsy. -/
def pyFalsyOpt : Option JsonValue → Bool
  | none => true
  | some v => !truthy v

/-- Python str.lower() on one character, for the ASCII range (the source only
ever compares lowered strings against the ASCII sentinel "n/a"). -/
def pyLowerChar (c : Char) : Char :=
  if 65 ≤ c.toNat && c.toNat ≤ 90 then Char.ofNat (c.toNat + 32) else c

/-- Python str.lower() (ASCII range). -/
def pyLower (s : String) : String :=
  String.mk (s.toList.map pyLowerChar)

/-- Python s[:n]: the first n characters of a string. -/
def pySlice (s : String) (n : Nat) : String :=
  String.mk (s.toList.take n)

/-- Python d.get(key): the value stored at the first (only) matching key, or
None when absent. -/
def jsonGet (d : Dict) (key : String) : Option JsonValue :=
  (d.find? (fun p => p.1 == key)).map (fun p => p.2)

/-- Python d[key] = v: replace the value at an existing key in place, else
append a new entry at the end (dict insertion-order semantics). -/
def dictSet : Dict → String → JsonValue → Dict
  | [], key, v => [(key, v)]
  | p :: rest, key, v => if p.1 == key then (key, v) :: rest else p :: dictSet rest key v

/-- Python `key in d` for a dict. -/
def hasKey (d : Dict) (key : String) : Bool :=
  d.any (fun p => p.1 == key)

/-- The type name Python would report for a value in an AttributeError. -/
def pyTypeName : JsonValue → String
  | .null => "NoneType"
  | .bool _ => "bool"
  | .num _ => "int"
  | .str _ => "str"
  | .arr _ => "list"
  | .obj _ => "dict"

/-- agents/data_extraction_agent.py, ensure_list_of_strings: keep only string
elements of a list whose lowercase form is not "n/a"; a bare "n/a" string and
every other shape map to the empty list. -/
def ensure_list_of_strings (field_value : Option JsonValue) : List JsonValue :=
  match field_value with
  | some (JsonValue.arr items) =>
      items.filter (fun item =>
        match item with
        | JsonValue.str s => !(pyLower s == "n/a")
        | _ => false)
  | some (JsonValue.str s) => if pyLower s == "n/a" then [] else []
  | _ => []

/-- agents/data_extraction_agent.py lines 76-85: rebuild the deliverables
list, keeping dict items that carry both "name" and "description", upgrading
non-"n/a" string items, and dropping everything else. -/
def clean_deliverables (raw_deliverables : Option JsonValue) : List JsonValue :=
  match raw_deliverables with
  | some (JsonValue.arr items) =>
      items.filterMap (fun item =>
        match item with
        | JsonValue.obj f =>
            if hasKey f "name" && hasKey f "description" then some (JsonValue.obj f) else none
        | JsonValue.str s =>
            if !(pyLower s == "n/a") then
              some (JsonValue.obj [("name", JsonValue.str s), ("description", JsonValue.str "Not detailed by AI")])
            else none
        | _ => none)
  | _ => []

/-- True when the stored value is a string whose lowercase form is "n/a"
(the second disjunct of the scalar-field guard in the source). -/
def isNaStringOpt : Option JsonValue → Bool
  | some (JsonValue.str s) => pyLower s == "n/a"
  | _ => false

/-- agents/data_extraction_agent.py lines 87-90 for one key: when the stored
value is missing/falsy, or is a string equal to "n/a" case-insensitively,
overwrite it with the sentinel "N/A"; otherwise leave the dict unchanged. -/
def scalar_field_cleanup (d : Dict) (key : String) : Dict :=
  if pyFalsyOpt (jsonGet d key) || isNaStringOpt (jsonGet d key) then
    dictSet d key (JsonValue.str "N/A")
  else d

/-- The seven list fields cleaned by the loop at lines 71-73, in loop order. -/
def listFields : List String :=
  ["objectives", "scope_of_work", "out_of_scope", "technical_requirements",
   "key_constraints", "stakeholders", "timeline_overview"]

/-- The cleanup loop of lines 71-73: each list field is overwritten with
ensure_list_of_strings of its current value. -/
def applyListCleanup (d : Dict) : Dict :=
  listFields.foldl (fun acc key => dictSet acc key (JsonValue.arr (ensure_list_of_strings (jsonGet acc key)))) d

/-- The whole post-deserialization cleanup of agents/data_extraction_agent.py
lines 60-92, applied to the decoded value. On a dict it runs the list-field
loop, the deliverables rebuild, and the two scalar-field repairs, and always
succeeds. On any non-dict the first attribute access parsed_data.get raises
AttributeError, modelled as the error message str(e) that the enclosing
handler will wrap. -/
def data_extraction_normalize (parsed_data : JsonValue) : Except String Dict :=
  match parsed_data with
  | JsonValue.obj d0 =>
      let d1 := applyListCleanup d0
      let d2 := dictSet d1 "deliverables" (JsonValue.arr (clean_deliverables (jsonGet d1 "deliverables")))
      let d3 := scalar_field_cleanup d2 "project_name"
      let d4 := scalar_field_cleanup d3 "client_name"
      Except.ok d4
  | v => Except.error ("'" ++ pyTypeName v ++ "' object has no attribute 'get'")

/-- One lowercase hexadecimal digit. -/
def hexDigit (n : Nat) : Char :=
  if n < 10 then Char.ofNat (48 + n) else Char.ofNat (87 + n)

/-- Four lowercase hexadecimal digits, as in Python's \uXXXX escapes. -/
def hex4 (n : Nat) : String :=
  String.mk [hexDigit (n / 4096 % 16), hexDigit (n / 256 % 16), hexDigit (n / 16 % 16), hexDigit (n % 16)]

/-- Escape one character the way Python's json.dumps (ensure_ascii=True) does. -/
def jsonEscapeChar (c : Char) : String :=
  if c = '"' then "\\\""
  else if c = '\\' then "\\\\"
  else if c = '\n' then "\\n"
  else if c = '\r' then "\\r"
  else if c = '\t' then "\\t"
  else if c.toNat = 8 then "\\b"
  else if c.toNat = 12 then "\\f"
  else if c.toNat < 32 then "\\u" ++ hex4 c.toNat
  else if c.toNat < 127 then c.toString
  else if c.toNat < 65536 then "\\u" ++ hex4 c.toNat
  else
    "\\u" ++ hex4 (55296 + (c.toNat - 65536) / 1024) ++ "\\u" ++ hex4 (56320 + (c.toNat - 65536) % 1024)

/-- Escape a whole string for JSON serialization. -/
def jsonEscape (s : String) : String :=
  String.join (s.toList.map jsonEscapeChar)

/-- Python json.dumps applied to the one-key dict built in the connector's
exception handler: the minimal error object. -/
def json_dumps_error (msg : String) : String :=
  "\x7b\"error\": \"" ++ jsonEscape msg ++ "\"\x7d"

/-- The body of the try block in agents/llm_connector.py lines 49-85: dispatch
on llm_choice, raise ValueError (modelled as Except.error) when the client for
the chosen provider is uninitialized or the choice is unsupported, otherwise
return the provider call's outcome. A provider outcome is itself an
Except String String: ok carries the response content, error carries str(e)
of whatever exception the provider raised. -/
def call_llm_attempt (llm_choice : String)
    (openai_client gemini_model : Option (Except String String)) : Except String String :=
  if llm_choice == "openai" then
    match openai_client with
    | none => Except.error "OpenAI client not initialized. Call initialize_llm_clients first."
    | some outcome => outcome
  else if llm_choice == "gemini" then
    match gemini_model with
    | none => Except.error "Gemini model not initialized. Call initialize_llm_clients first."
    | some outcome => outcome
  else
    Except.error ("LLM choice '" ++ llm_choice ++ "' is not supported.")

set_option linter.unusedVariables false in
/-- agents/llm_connector.py, _call_llm: run the dispatch, and fold every
raised error into a returned string -- a JSON error object when JSON output
was requested, a human-readable "Error: ..." line otherwise. -/
def call_llm (messages : List (String × String)) (response_format : String) (llm_choice : String)
    (openai_client gemini_model : Option (Except String String)) : String :=
  match call_llm_attempt llm_choice openai_client gemini_model with
  | Except.ok content => content
  | Except.error e =>
      if response_format == "json_object" then json_dumps_error e else "Error: " ++ e

/-- The system instruction of the data extraction agent. -/
def data_extraction_system_instruction : String :=
  "You are an expert AI assistant specialized in analyzing Scope of Work (SOW) documents. Your goal is to extract precise and comprehensive information into a structured JSON object. Adhere strictly to the requested schema and data types."

/-- The user prompt of the data extraction agent (the f-string of
agents/data_extraction_agent.py lines 17-50, with the truncated SOW text
interpolated). -/
def data_extraction_user_prompt (sow_text_limited : String) : String :=
  "\n    Read the following Scope of Work (SOW) text carefully and extract ALL the key information into a structured JSON object.\n" ++
  "    Be precise, comprehensive, and accurate.\n\n" ++
  "    **Strict JSON Schema Adherence:**\n" ++
  "    - If a field is not explicitly mentioned or clearly derivable, return an empty array `[]` for list fields, and \"N/A\" for single string fields.\n" ++
  "    - Do NOT return \"N/A\" inside a list. If a list has no content, return `[]`.\n" ++
  "    - For \"deliverables\", each item in the list MUST be an object with \"name\" (string) and \"description\" (string) keys.\n\n" ++
  "    **Key Field Extraction Guidelines:**\n" ++
  "    - **\"project_name\"**: Identify the official or implied name of the project. Look for titles, headings, or the main subject discussed. If ambiguous, use the most prominent phrase.\n" ++
  "    - **\"client_name\"**: Identify the full name of the client or organization issuing the SOW. Look for \"Client:\", \"Customer:\", \"Issued By:\", \"For:\", \"Organization Name:\", or the primary entity requesting the work.\n" ++
  "    - **\"timeline_overview\"**: Extract descriptions of project duration, phases, key milestones, or important dates. This should be a list of strings.\n\n" ++
  "    SOW Text:\n    ---\n    " ++ sow_text_limited ++ "\n    ---\n\n" ++
  "    Extract the following fields into a JSON object:\n" ++
  "    - \"project_name\": (string)\n" ++
  "    - \"client_name\": (string)\n" ++
  "    - \"objectives\": (list of strings) Concise main goals or aims of the project.\n" ++
  "    - \"scope_of_work\": (list of strings) Detailed summary of activities, tasks, and responsibilities explicitly INCLUDED.\n" ++
  "    - \"out_of_scope\": (list of strings) Detailed summary of activities, tasks, or responsibilities explicitly EXCLUDED.\n" ++
  "    - \"deliverables\": (list of objects) Tangible outputs/results. Each object: \x7b\"name\": \"string\", \"description\": \"string\"\x7d.\n" ++
  "      Example: \x7b\"name\": \"Phase 1 Report\", \"description\": \"Detailed analysis and recommendations\"\x7d\n" ++
  "    - \"technical_requirements\": (list of strings) Specific technologies, platforms, tools, standards, or methodologies.\n" ++
  "    - \"key_constraints\": (list of strings) Significant limitations, assumptions, risks, or conditions.\n" ++
  "    - \"stakeholders\": (list of strings) Key roles, teams, or departments involved (client and vendor side).\n" ++
  "    - \"timeline_overview\": (list of strings) Project duration, phases, or key milestones.\n\n" ++
  "    Return only the JSON object.\n    "

/-- The role-tagged message list sent by the data extraction agent. -/
def data_extraction_messages (sow_text_limited : String) : List (String × String) :=
  [("system", data_extraction_system_instruction), ("user", data_extraction_user_prompt sow_text_limited)]

/-- agents/data_extraction_agent.py lines 57-98: the try/except around
json.loads and the cleanup. A decode failure produces the error record
carrying a 500-character excerpt of the raw response; any exception inside
the cleanup (only possible on a non-dict decoded value) produces the
"An unexpected error occurred" record; otherwise the cleaned dict is
returned. -/
def data_extraction_handle_response (response_content : String)
    (decoded : Except Unit JsonValue) : Dict :=
  match decoded with
  | Except.error _ =>
      [("error", JsonValue.str ("Failed to parse LLM response as JSON. Raw LLM output: " ++ pySlice response_content 500))]
  | Except.ok parsed_data =>
      match data_extraction_normalize parsed_data with
      | Except.ok cleaned => cleaned
      | Except.error e => [("error", JsonValue.str ("An unexpected error occurred: " ++ e))]

/-- agents/data_extraction_agent.py, data_extraction_agent_run: guard against
empty input, truncate to 15000 characters, build the extraction request, call
the LLM with JSON output requested, then decode and clean the response.
json_loads is the (stdlib) JSON decoder, modelled as a parameter: ok carries
the decoded value, error marks a json.JSONDecodeError. -/
def data_extraction_agent_run (sow_text : String) (llm_choice : String)
    (openai_client gemini_model : Option (Except String String))
    (json_loads : String → Except Unit JsonValue) : Dict :=
  if sow_text == "" then
    [("error", JsonValue.str "No SOW text provided for extraction.")]
  else
    let sow_text_limited := pySlice sow_text 15000
    let messages := data_extraction_messages sow_text_limited
    let response_content := call_llm messages "json_object" llm_choice openai_client gemini_model
    data_extraction_handle_response response_content (json_loads response_content)

/-- The indentation Python's json.dumps(indent=2) puts before entries at the
given nesting level. -/
def indentOf (level : Nat) : String :=
  String.mk (List.replicate (2 * (level + 1)) ' ')

/-- The indentation before a closing bracket at the given nesting level. -/
def closeIndentOf (level : Nat) : String :=
  String.mk (List.replicate (2 * level) ' ')

mutual

/-- Python json.dumps(value, indent=2), at the given nesting level. -/
def json_dumps_indent : JsonValue → Nat → String
  | JsonValue.null, _ => "null"
  | JsonValue.bool b, _ => if b then "true" else "false"
  | JsonValue.num n, _ => toString n
  | JsonValue.str s, _ => "\"" ++ jsonEscape s ++ "\""
  | JsonValue.arr [], _ => "[]"
  | JsonValue.arr (x :: xs), level =>
      "[\n" ++ String.intercalate ",\n" (json_dumps_arr_items (x :: xs) level) ++
      "\n" ++ closeIndentOf level ++ "]"
  | JsonValue.obj [], _ => "\x7b\x7d"
  | JsonValue.obj (p :: ps), level =>
      "\x7b\n" ++ String.intercalate ",\n" (json_dumps_obj_items (p :: ps) level) ++
      "\n" ++ closeIndentOf level ++ "\x7d"

/-- The serialized entries of an array, each on its own indented line. -/
def json_dumps_arr_items : List JsonValue → Nat → List String
  | [], _ => []
  | x :: xs, level =>
      (indentOf level ++ json_dumps_indent x (level + 1)) :: json_dumps_arr_items xs level

/-- The serialized entries of an object, each on its own indented line. -/
def json_dumps_obj_items : List (String × JsonValue) → Nat → List String
  | [], _ => []
  | (k, v) :: ps, level =>
      (indentOf level ++ "\"" ++ jsonEscape k ++ "\": " ++ json_dumps_indent v (level + 1)) ::
      json_dumps_obj_items ps level

end

mutual

/-- Python repr() of a decoded JSON value (string escaping inside container
reprs simplified to plain single quotes). -/
def pyRepr : JsonValue → String
  | JsonValue.null => "None"
  | JsonValue.bool b => if b then "True" else "False"
  | JsonValue.num n => toString n
  | JsonValue.str s => "'" ++ s ++ "'"
  | JsonValue.arr items => "[" ++ String.intercalate ", " (pyReprItems items) ++ "]"
  | JsonValue.obj fields => "\x7b" ++ String.intercalate ", " (pyReprFields fields) ++ "\x7d"

/-- The reprs of a list's items. -/
def pyReprItems : List JsonValue → List String
  | [] => []
  | x :: xs => pyRepr x :: pyReprItems xs

/-- The reprs of a dict's entries. -/
def pyReprFields : List (String × JsonValue) → List String
  | [] => []
  | (k, v) :: ps => ("'" ++ k ++ "': " ++ pyRepr v) :: pyReprFields ps

end

/-- Python str() of a decoded JSON value, as used inside f-strings. -/
def pyStr : JsonValue → String
  | JsonValue.str s => s
  | v => pyRepr v

/-- agents/proposal_generation_agent.py, _format_list_for_prompt: a falsy
value yields the default message; a list is rendered as "\n- "-joined
bullets. (On a truthy string Python's join iterates its characters; other
truthy shapes would raise in the source and are rendered via str() here.) -/
def format_list_for_prompt (items : Option JsonValue) (default_message : String) : String :=
  if pyFalsyOpt items then default_message
  else
    match items with
    | some (JsonValue.arr l) => "\n- " ++ String.intercalate "\n- " (l.map pyStr)
    | some (JsonValue.str s) => "\n- " ++ String.intercalate "\n- " (s.toList.map (fun c => c.toString))
    | some v => "\n- " ++ pyStr v
    | none => default_message

/-- Python sep.join(x) as used on the technical_requirements, stakeholders
and timeline_overview values (lists of strings in normalized data; a string
is character-joined as Python would). -/
def py_join (sep : String) (v : Option JsonValue) : String :=
  match v with
  | some (JsonValue.arr l) => String.intercalate sep (l.map pyStr)
  | some (JsonValue.str s) => String.intercalate sep (s.toList.map (fun c => c.toString))
  | some v' => pyStr v'
  | none => ""

/-- agents/analysis_agent.py line 12: the failed-input check
`not sow_structured_data or sow_structured_data.get("error")`. -/
def analysis_input_check (sow_structured_data : Option Dict) : Bool :=
  match sow_structured_data with
  | none => true
  | some d => d.isEmpty || truthyOpt (jsonGet d "error")

/-- The system instruction of the analysis agent. -/
def analysis_system_instruction : String :=
  "You are a professional technical writer and summarizer. Provide a detailed and well-structured summary."

/-- The user prompt of the analysis agent (agents/analysis_agent.py lines
18-30) with the serialized structured data interpolated. -/
def analysis_user_prompt (sow_json_str : String) : String :=
  "\n    Based on the following structured Scope of Work (SOW) data, generate a comprehensive and detailed natural language summary.\n" ++
  "    The summary should be professional, concise, and highlight all critical aspects.\n" ++
  "    Organize it logically with clear headings or bullet points where appropriate.\n" ++
  "    Ensure all key information (Project Name, Client, Objectives, Scope, Deliverables, Technical Requirements, Constraints, Timeline) is covered.\n\n" ++
  "    Structured SOW Data:\n    ---\n    " ++ sow_json_str ++ "\n    ---\n\n    Detailed Summary:\n    "

/-- agents/analysis_agent.py, analysis_agent_run: refuse on invalid/missing
structured data, otherwise serialize it into the summary prompt and call the
LLM for free text. -/
def analysis_agent_run (sow_structured_data : Option Dict) (llm_choice : String)
    (openai_client gemini_model : Option (Except String String)) : String :=
  if analysis_input_check sow_structured_data then
    "Cannot summarize: Invalid or missing SOW structured data."
  else
    let d := sow_structured_data.getD []
    let sow_json_str := json_dumps_indent (JsonValue.obj d) 0
    let messages := [("system", analysis_system_instruction), ("user", analysis_user_prompt sow_json_str)]
    call_llm messages "text" llm_choice openai_client gemini_model

/-- agents/proposal_generation_agent.py line 19: the failed-input check
`not sow_structured_data or sow_structured_data.get("error")`, written out
where it appears in that file. -/
def proposal_input_check (sow_structured_data : Option Dict) : Bool :=
  match sow_structured_data with
  | none => true
  | some d => d.isEmpty || truthyOpt (jsonGet d "error")

/-- agents/proposal_generation_agent.py lines 29-36: the deliverables bullet
fragment, with dict items rendered as bold name/description lines, string
items upgraded, and a fixed fallback when nothing was rendered. -/
def proposal_deliverables_fragment (sow_structured_data : Dict) : String :=
  let deliverablesBuilder : List String :=
    if truthyOpt (jsonGet sow_structured_data "deliverables") then
      match jsonGet sow_structured_data "deliverables" with
      | some (JsonValue.arr items) =>
          items.filterMap (fun d =>
            match d with
            | JsonValue.obj f =>
                if hasKey f "name" && hasKey f "description" then
                  some ("- **" ++ pyStr ((jsonGet f "name").getD JsonValue.null) ++ "**: " ++
                        pyStr ((jsonGet f "description").getD JsonValue.null))
                else none
            | JsonValue.str s => some ("- **" ++ s ++ "**: Not detailed by AI")
            | _ => none)
      | _ => []
    else []
  if deliverablesBuilder.isEmpty then "- Specific deliverables to be detailed."
  else "\n" ++ String.intercalate "\n" deliverablesBuilder

/-- The system instruction of the proposal generation agent. -/
def proposal_system_instruction : String :=
  "You are a senior solution architect and expert technical proposal writer. Your task is to generate a comprehensive, persuasive, and professional technical proposal draft in Markdown format. The proposal must directly address the client's Scope of Work details and clearly outline our proposed solution."

/-- The eleven-section proposal template of agents/proposal_generation_agent.py
lines 51-102, with all fragments interpolated. -/
def proposal_user_prompt (projectName clientName objectives technicalRequirements_str scopeOfWork outOfScope deliverables timelineOverview_str stakeholders_str sow_json_str : String) : String :=
  "\n    Based on the following extracted Scope of Work (SOW) details for \"" ++ projectName ++ "\" by \"" ++ clientName ++ "\",\n" ++
  "    draft a comprehensive technical proposal. Use professional, persuasive language and standard Markdown formatting for readability.\n" ++
  "    Ensure the proposal directly addresses the client's needs and clearly outlines our proposed solution.\n\n" ++
  "    ---\n    Extracted SOW Details:\n    " ++ sow_json_str ++ "\n    ---\n\n" ++
  "    # Technical Proposal for " ++ projectName ++ "\n\n" ++
  "    ## 1. Executive Summary\n" ++
  "    Provide a concise, high-level overview of " ++ clientName ++ "'s challenge, our understanding of " ++ projectName ++ "'s objectives, and how our solution will deliver value. Emphasize key benefits and our unique capabilities. This section should compel the reader to continue.\n\n" ++
  "    ## 2. Understanding the Client's Needs & Objectives\n" ++
  "    Demonstrate a clear and empathetic understanding of " ++ clientName ++ "'s current situation, their stated and implied pain points, and the specific problems or opportunities " ++ projectName ++ " aims to address. Clearly articulate how our understanding aligns with their vision.\n" ++
  "    **Key Objectives:**\n    " ++ objectives ++ "\n\n" ++
  "    ## 3. Proposed Solution & Approach\n" ++
  "    Detail our recommended technical solution, outlining its core components and how it directly addresses the client's objectives and technical requirements. Describe the strategic approach and methodology (e.g., Agile, phased implementation, iterative development) we will employ to achieve project success.\n" ++
  "    Address the technical requirements mentioned (" ++ technicalRequirements_str ++ ") by explaining how our solution incorporates or leverages them.\n\n" ++
  "    ## 4. Scope of Work (Our Understanding)\n" ++
  "    Clearly define the activities, tasks, and responsibilities that are **included** in our proposed solution. This should align precisely with the SOW, ensuring no ambiguity.\n    " ++ scopeOfWork ++ "\n\n" ++
  "    ## 5. Out of Scope\n" ++
  "    Clearly define what is **not included** in this proposal to manage expectations, prevent scope creep, and avoid misunderstandings.\n    " ++ outOfScope ++ "\n\n" ++
  "    ## 6. Key Deliverables\n" ++
  "    List the tangible outputs and results that will be provided at various stages of the project. For each deliverable, briefly describe its purpose or content.\n    " ++ deliverables ++ "\n\n" ++
  "    ## 7. Technical Architecture & Stack\n" ++
  "    Propose a high-level technical architecture diagram (described in text) and specify the primary technologies, platforms, and tools that will be utilized. Explain how this stack aligns with the SOW's technical requirements, ensures scalability, security, and performance.\n\n" ++
  "    ## 8. Project Timeline & Phases\n" ++
  "    Provide a high-level proposed timeline with key phases and milestones. Describe the duration of each phase and what will be achieved.\n    " ++ timelineOverview_str ++ "\n\n" ++
  "    ## 9. Project Team & Governance\n" ++
  "    Outline the proposed team structure, key roles (e.g., Project Manager, Lead Developer, QA), and how the project will be managed and governed. Describe communication protocols and reporting mechanisms to ensure successful delivery and effective collaboration with " ++ stakeholders_str ++ ".\n\n" ++
  "    ## 10. Assumptions and Constraints\n" ++
  "    List any critical assumptions made in preparing this proposal (e.g., client data availability, access to systems) and reiterate key constraints from the SOW (e.g., budget limits, specific regulatory requirements) that will influence project execution.\n\n" ++
  "    ## 11. Next Steps\n" ++
  "    Outline the proposed next steps to move forward with " ++ clientName ++ " and initiate " ++ projectName ++ ". This should include any necessary meetings, approvals, or detailed planning sessions.\n    "

/-- agents/proposal_generation_agent.py, proposal_generation_agent_run:
refuse on invalid/missing structured data, otherwise render each field into
a prompt fragment (with its fixed fallback when empty) and call the LLM for
free text. (keyConstraints is computed in the source but never interpolated
into this file's template.) -/
def proposal_generation_agent_run (sow_structured_data : Option Dict) (llm_choice : String)
    (openai_client gemini_model : Option (Except String String)) : String :=
  if proposal_input_check sow_structured_data then
    "Cannot draft proposal: Invalid or missing SOW structured data."
  else
    let d := sow_structured_data.getD []
    let projectName := pyStr ((jsonGet d "project_name").getD (JsonValue.str "the Project"))
    let clientName := pyStr ((jsonGet d "client_name").getD (JsonValue.str "the Client"))
    let objectives := format_list_for_prompt (jsonGet d "objectives") "To be defined based on client needs."
    let scopeOfWork := format_list_for_prompt (jsonGet d "scope_of_work") "Detailed scope will be outlined upon further analysis."
    let outOfScope := format_list_for_prompt (jsonGet d "out_of_scope") "Any items not explicitly included in the 'Scope of Work' are considered out of scope."
    let deliverables := proposal_deliverables_fragment d
    let technicalRequirements_str :=
      if truthyOpt (jsonGet d "technical_requirements") then py_join ", " (jsonGet d "technical_requirements")
      else "relevant technologies and industry best practices"
    let stakeholders_str :=
      if truthyOpt (jsonGet d "stakeholders") then py_join ", " (jsonGet d "stakeholders")
      else "key client and vendor personnel"
    let timelineOverview_str :=
      if truthyOpt (jsonGet d "timeline_overview") then py_join " " (jsonGet d "timeline_overview")
      else "A detailed project timeline will be developed in collaboration with the client."
    let sow_json_str := json_dumps_indent (JsonValue.obj d) 0
    let messages := [("system", proposal_system_instruction),
      ("user", proposal_user_prompt projectName clientName objectives technicalRequirements_str scopeOfWork outOfScope deliverables timelineOverview_str stakeholders_str sow_json_str)]
    call_llm messages "text" llm_choice openai_client gemini_model

/-- A stored list-field value that already follows the canonical conventions
of the spec's section 3: a list whose elements are all strings and none of
them is (any casing of) the sentinel. -/
def canonicalListValue : Option JsonValue → Bool
  | some (JsonValue.arr items) =>
      items.all (fun item =>
        match item with
        | JsonValue.str s => !(pyLower s == "n/a")
        | _ => false)
  | _ => false

/-- A stored deliverables value that already follows the canonical
conventions: a list of objects each carrying both name and description. -/
def canonicalDeliverablesValue : Option JsonValue → Bool
  | some (JsonValue.arr items) =>
      items.all (fun item =>
        match item with
        | JsonValue.obj f => hasKey f "name" && hasKey f "description"
        | _ => false)
  | _ => false

/-- A stored scalar-field value that already follows the canonical
conventions: either the literal sentinel "N/A", or a non-empty string that
is not (any casing of) "n/a". -/
def canonicalScalarValue : Option JsonValue → Bool
  | some (JsonValue.str s) => s == "N/A" || (!(s == "") && !(pyLower s == "n/a"))
  | _ => false

/-- A StructuredDocument that already conforms to the ten-field schema with
the sentinel and empty-list conventions of the spec's section 3. -/
def isCanonicalDocument (d : Dict) : Bool :=
  listFields.all (fun k => canonicalListValue (jsonGet d k)) &&
  canonicalDeliverablesValue (jsonGet d "deliverables") &&
  canonicalScalarValue (jsonGet d "project_name") &&
  canonicalScalarValue (jsonGet d "client_name")

/-- Whether a decoded value is a string. -/
def jsonIsStr : JsonValue → Bool
  | JsonValue.str _ => true
  | _ => false

/-- Spec-side (section 4.2 rule 1): an element a list field keeps -- a string
whose case-insensitive value is not the sentinel "n/a". -/
def c3_spec_kept : JsonValue → Bool
  | JsonValue.str s => !(pyLower s == "n/a")
  | _ => false

/-- Spec-side (section 4.2 rule 2): the per-element deliverables repair --
keep an object carrying both name and description, upgrade a non-sentinel
plain string, drop everything else. -/
def c4_spec_repair : JsonValue → Option JsonValue
  | JsonValue.obj f =>
      if hasKey f "name" && hasKey f "description" then some (JsonValue.obj f) else none
  | JsonValue.str s =>
      if !(pyLower s == "n/a") then
        some (JsonValue.obj [("name", JsonValue.str s), ("description", JsonValue.str "Not detailed by AI")])
      else none
  | _ => none

/-- Spec-side (sections 4.4 and 7): an input document that represents a
failed extraction -- absent, empty, or carrying a truthy error marker. -/
def FailedExtraction (d : Option Dict) : Prop :=
  d = none ∨ ∃ dd, d = some dd ∧
    (dd = [] ∨ ∃ v, jsonGet dd "error" = some v ∧ truthy v = true)

lemma jsonGet_nil (k : String) : jsonGet [] k = none := rfl

lemma jsonGet_cons (p : String × JsonValue) (t : Dict) (k : String) :
    jsonGet (p :: t) k = if p.1 == k then some p.2 else jsonGet t k := by
  cases h : p.1 == k <;> simp [jsonGet, List.find?, h]

lemma jsonGet_dictSet_self (d : Dict) (k : String) (v : JsonValue) :
    jsonGet (dictSet d k v) k = some v := by
  induction d with
  | nil => simp [dictSet, jsonGet_cons]
  | cons p rest ih =>
    by_cases h : p.1 == k
    · simp [dictSet, h, jsonGet_cons]
    · simp [dictSet, h, jsonGet_cons, ih]

lemma jsonGet_dictSet_ne (d : Dict) (k k' : String) (v : JsonValue) (h : k' ≠ k) :
    jsonGet (dictSet d k v) k' = jsonGet d k' := by
  induction d with
  | nil => simp [dictSet, jsonGet_cons, jsonGet_nil, beq_iff_eq, Ne.symm h]
  | cons p rest ih =>
    by_cases hp : p.1 == k
    · rw [beq_iff_eq] at hp
      simp [dictSet, hp, jsonGet_cons, beq_iff_eq, Ne.symm h]
    · simp [dictSet, hp, jsonGet_cons, ih]

lemma dictSet_unchanged (d : Dict) (k : String) (v : JsonValue)
    (h : jsonGet d k = some v) : dictSet d k v = d := by
  induction d with
  | nil => simp [jsonGet_nil] at h
  | cons p rest ih =>
    rw [jsonGet_cons] at h
    by_cases hp : p.1 == k
    · rw [if_pos hp] at h
      cases p with
      | mk k0 v0 =>
        rw [beq_iff_eq] at hp
        simp at h hp
        simp [dictSet, hp, h]
    · rw [if_neg hp] at h
      simp [dictSet, hp, ih h]

lemma jsonGet_scalar_field_cleanup_ne (d : Dict) (k k' : String) (h : k' ≠ k) :
    jsonGet (scalar_field_cleanup d k) k' = jsonGet d k' := by
  unfold scalar_field_cleanup
  split
  · exact jsonGet_dictSet_ne _ _ _ _ h
  · rfl

lemma jsonGet_scalar_field_cleanup_self (d : Dict) (k : String) :
    jsonGet (scalar_field_cleanup d k) k =
      if pyFalsyOpt (jsonGet d k) || isNaStringOpt (jsonGet d k) then some (JsonValue.str "N/A")
      else jsonGet d k := by
  unfold scalar_field_cleanup
  split <;> simp_all [jsonGet_dictSet_self]

lemma jsonGet_applyListCleanup_not_mem (d : Dict) (k : String) (hk : ¬ k ∈ listFields) :
    jsonGet (applyListCleanup d) k = jsonGet d k := by
  simp only [listFields, List.mem_cons, List.not_mem_nil, or_false, not_or] at hk
  obtain ⟨h1, h2, h3, h4, h5, h6, h7⟩ := hk
  simp [applyListCleanup, listFields, List.foldl, jsonGet_dictSet_ne, h1, h2, h3, h4, h5, h6, h7]

lemma data_extraction_normalize_obj (fields : Dict) :
    data_extraction_normalize (JsonValue.obj fields) =
      Except.ok (scalar_field_cleanup (scalar_field_cleanup
        (dictSet (applyListCleanup fields) "deliverables"
          (JsonValue.arr (clean_deliverables (jsonGet (applyListCleanup fields) "deliverables"))))
        "project_name") "client_name") := rfl

lemma jsonGet_normalize_list_field (fields : Dict) (k : String) (hk : k ∈ listFields) (r : Dict)
    (hr : data_extraction_normalize (JsonValue.obj fields) = Except.ok r) :
    jsonGet r k = some (JsonValue.arr (ensure_list_of_strings (jsonGet fields k))) := by
  rw [data_extraction_normalize_obj] at hr
  injection hr with hr
  subst hr
  fin_cases hk <;>
    simp [jsonGet_scalar_field_cleanup_ne, jsonGet_dictSet_ne,
      applyListCleanup, listFields, List.foldl, jsonGet_dictSet_self]

lemma jsonGet_normalize_deliverables (fields : Dict) (r : Dict)
    (hr : data_extraction_normalize (JsonValue.obj fields) = Except.ok r) :
    jsonGet r "deliverables" =
      some (JsonValue.arr (clean_deliverables (jsonGet fields "deliverables"))) := by
  rw [data_extraction_normalize_obj] at hr
  injection hr with hr
  subst hr
  rw [jsonGet_scalar_field_cleanup_ne _ _ _ (by decide),
      jsonGet_scalar_field_cleanup_ne _ _ _ (by decide),
      jsonGet_dictSet_self,
      jsonGet_applyListCleanup_not_mem _ _ (by decide)]

lemma jsonGet_normalize_scalar (fields : Dict) (r : Dict)
    (hr : data_extraction_normalize (JsonValue.obj fields) = Except.ok r)
    (k : String) (hk : k = "project_name" ∨ k = "client_name") :
    jsonGet r k =
      if pyFalsyOpt (jsonGet fields k) || isNaStringOpt (jsonGet fields k) then
        some (JsonValue.str "N/A")
      else jsonGet fields k := by
  rw [data_extraction_normalize_obj] at hr
  injection hr with hr
  subst hr
  rcases hk with rfl | rfl
  · rw [jsonGet_scalar_field_cleanup_ne _ _ _ (by decide), jsonGet_scalar_field_cleanup_self,
        jsonGet_dictSet_ne _ _ _ _ (by decide), jsonGet_applyListCleanup_not_mem _ _ (by decide)]
  · rw [jsonGet_scalar_field_cleanup_self, jsonGet_scalar_field_cleanup_ne _ _ _ (by decide),
        jsonGet_dictSet_ne _ _ _ _ (by decide), jsonGet_applyListCleanup_not_mem _ _ (by decide)]

lemma jsonGet_normalize_other (fields : Dict) (r : Dict)
    (hr : data_extraction_normalize (JsonValue.obj fields) = Except.ok r)
    (k : String) (h1 : ¬ k ∈ listFields) (h2 : k ≠ "deliverables")
    (h3 : k ≠ "project_name") (h4 : k ≠ "client_name") :
    jsonGet r k = jsonGet fields k := by
  rw [data_extraction_normalize_obj] at hr
  injection hr with hr
  subst hr
  rw [jsonGet_scalar_field_cleanup_ne _ _ _ h4, jsonGet_scalar_field_cleanup_ne _ _ _ h3,
      jsonGet_dictSet_ne _ _ _ _ h2, jsonGet_applyListCleanup_not_mem _ _ h1]

lemma string_append_assoc (a b c : String) : a ++ b ++ c = a ++ (b ++ c) := by
  cases a with | mk la =>
  cases b with | mk lb =>
  cases c with | mk lc =>
  show String.mk (la ++ lb ++ lc) = String.mk (la ++ (lb ++ lc))
  rw [List.append_assoc]

lemma ensure_list_of_strings_mem (v : Option JsonValue) :
    ∀ x ∈ ensure_list_of_strings v, ∃ s, x = JsonValue.str s ∧ pyLower s ≠ "n/a" := by
  intro x hx
  unfold ensure_list_of_strings at hx
  match v with
  | none => simp at hx
  | some JsonValue.null => simp at hx
  | some (JsonValue.bool _) => simp at hx
  | some (JsonValue.num _) => simp at hx
  | some (JsonValue.obj _) => simp at hx
  | some (JsonValue.str s) =>
    by_cases h : pyLower s == "n/a" <;> simp [h] at hx
  | some (JsonValue.arr items) =>
    rw [List.mem_filter] at hx
    obtain ⟨_, hpred⟩ := hx
    match x with
    | JsonValue.str s =>
      refine ⟨s, rfl, ?_⟩
      simpa using hpred
    | JsonValue.null | JsonValue.bool _ | JsonValue.num _ | JsonValue.arr _ | JsonValue.obj _ =>
      simp at hpred

lemma clean_deliverables_mem (v : Option JsonValue) :
    ∀ x ∈ clean_deliverables v,
      ∃ f, x = JsonValue.obj f ∧ hasKey f "name" = true ∧ hasKey f "description" = true := by
  intro x hx
  unfold clean_deliverables at hx
  match v with
  | none => simp at hx
  | some JsonValue.null => simp at hx
  | some (JsonValue.bool _) => simp at hx
  | some (JsonValue.num _) => simp at hx
  | some (JsonValue.obj _) => simp at hx
  | some (JsonValue.str _) => simp at hx
  | some (JsonValue.arr items) =>
    rw [List.mem_filterMap] at hx
    obtain ⟨a, _, ha⟩ := hx
    match a with
    | JsonValue.null | JsonValue.bool _ | JsonValue.num _ | JsonValue.arr _ => simp at ha
    | JsonValue.obj f =>
      by_cases h : hasKey f "name" && hasKey f "description"
      · simp [h] at ha
        rw [Bool.and_eq_true] at h
        exact ⟨f, ha.symm, h.1, h.2⟩
      · simp [h] at ha
    | JsonValue.str s =>
      by_cases h : pyLower s == "n/a"
      · simp [h] at ha
      · simp [h] at ha
        exact ⟨_, ha.symm, rfl, rfl⟩

lemma filterMap_eq_self_of {α : Type} (f : α → Option α) (l : List α)
    (h : ∀ a ∈ l, f a = some a) : l.filterMap f = l := by
  induction l with
  | nil => rfl
  | cons a t ih =>
    rw [List.filterMap_cons, h a (by simp)]
    rw [ih fun b hb => h b (by simp [hb])]

lemma canonical_list_step (d : Dict) (k : String)
    (h : canonicalListValue (jsonGet d k) = true) :
    dictSet d k (JsonValue.arr (ensure_list_of_strings (jsonGet d k))) = d := by
  unfold canonicalListValue at h
  match hv : jsonGet d k with
  | none => rw [hv] at h; simp at h
  | some JsonValue.null => rw [hv] at h; simp at h
  | some (JsonValue.bool _) => rw [hv] at h; simp at h
  | some (JsonValue.num _) => rw [hv] at h; simp at h
  | some (JsonValue.str _) => rw [hv] at h; simp at h
  | some (JsonValue.obj _) => rw [hv] at h; simp at h
  | some (JsonValue.arr items) =>
    rw [hv] at h
    have hall : ∀ x ∈ items, (fun item =>
        match item with
        | JsonValue.str s => !(pyLower s == "n/a")
        | _ => false) x = true := by
      simpa [List.all_eq_true] using h
    have hfilter : ensure_list_of_strings (some (JsonValue.arr items)) = items := by
      unfold ensure_list_of_strings
      exact List.filter_eq_self.mpr hall
    rw [hfilter]
    exact dictSet_unchanged _ _ _ hv

lemma canonical_deliverables_step (d : Dict)
    (h : canonicalDeliverablesValue (jsonGet d "deliverables") = true) :
    dictSet d "deliverables" (JsonValue.arr (clean_deliverables (jsonGet d "deliverables"))) = d := by
  unfold canonicalDeliverablesValue at h
  match hv : jsonGet d "deliverables" with
  | none => rw [hv] at h; simp at h
  | some JsonValue.null => rw [hv] at h; simp at h
  | some (JsonValue.bool _) => rw [hv] at h; simp at h
  | some (JsonValue.num _) => rw [hv] at h; simp at h
  | some (JsonValue.str _) => rw [hv] at h; simp at h
  | some (JsonValue.obj _) => rw [hv] at h; simp at h
  | some (JsonValue.arr items) =>
    rw [hv] at h
    rw [List.all_eq_true] at h
    have hclean : clean_deliverables (some (JsonValue.arr items)) = items := by
      unfold clean_deliverables
      apply filterMap_eq_self_of
      intro a ha
      have := h a ha
      match a with
      | JsonValue.obj f => simp_all
      | JsonValue.str _ => simp_all
      | JsonValue.null => simp_all
      | JsonValue.bool _ => simp_all
      | JsonValue.num _ => simp_all
      | JsonValue.arr _ => simp_all
    rw [hclean]
    exact dictSet_unchanged _ _ _ hv

lemma canonical_scalar_step (d : Dict) (k : String)
    (h : canonicalScalarValue (jsonGet d k) = true) :
    scalar_field_cleanup d k = d := by
  unfold canonicalScalarValue at h
  match hv : jsonGet d k with
  | none => rw [hv] at h; simp at h
  | some JsonValue.null => rw [hv] at h; simp at h
  | some (JsonValue.bool _) => rw [hv] at h; simp at h
  | some (JsonValue.num _) => rw [hv] at h; simp at h
  | some (JsonValue.arr _) => rw [hv] at h; simp at h
  | some (JsonValue.obj _) => rw [hv] at h; simp at h
  | some (JsonValue.str s) =>
    rw [hv] at h
    simp only [Bool.or_eq_true, Bool.and_eq_true, Bool.not_eq_true', beq_iff_eq] at h
    unfold scalar_field_cleanup
    rcases h with hna | ⟨hne, hnotna⟩
    · subst hna
      rw [hv]
      have hcond : (pyFalsyOpt (some (JsonValue.str "N/A")) ||
          isNaStringOpt (some (JsonValue.str "N/A"))) = true := by decide
      rw [if_pos hcond]
      exact dictSet_unchanged _ _ _ hv
    · rw [hv]
      have hcond : (pyFalsyOpt (some (JsonValue.str s)) ||
          isNaStringOpt (some (JsonValue.str s))) = false := by
        simp [pyFalsyOpt, truthy, isNaStringOpt, bne, hne, hnotna]
      rw [hcond]
      simp

lemma applyListCleanup_canonical (d : Dict)
    (h : ∀ k ∈ listFields, canonicalListValue (jsonGet d k) = true) :
    applyListCleanup d = d := by
  have h1 := canonical_list_step d "objectives" (h _ (by simp [listFields]))
  have h2 := canonical_list_step d "scope_of_work" (h _ (by simp [listFields]))
  have h3 := canonical_list_step d "out_of_scope" (h _ (by simp [listFields]))
  have h4 := canonical_list_step d "technical_requirements" (h _ (by simp [listFields]))
  have h5 := canonical_list_step d "key_constraints" (h _ (by simp [listFields]))
  have h6 := canonical_list_step d "stakeholders" (h _ (by simp [listFields]))
  have h7 := canonical_list_step d "timeline_overview" (h _ (by simp [listFields]))
  simp only [applyListCleanup, listFields, List.foldl]
  rw [h1, h2, h3, h4, h5, h6, h7]

/-- C3: for every raw input shape of any of the seven list fields, the
normalized output list contains only strings, never any casing of the
sentinel "N/A"; when the raw value is a sequence, exactly the non-sentinel
string elements are kept in order with duplicates preserved, and every
non-sequence raw shape maps to the empty list. -/
theorem c3_list_field_cleanup (fields : Dict) (k : String) (hk : k ∈ listFields)
    (r : Dict) (hr : data_extraction_normalize (JsonValue.obj fields) = Except.ok r) :
    ∃ items : List JsonValue,
      jsonGet r k = some (JsonValue.arr items) ∧
      (∀ x ∈ items, ∀ s, x = JsonValue.str s → pyLower s ≠ "n/a") ∧
      (∀ raw_items, jsonGet fields k = some (JsonValue.arr raw_items) →
        items = raw_items.filter c3_spec_kept) ∧
      ((∀ raw_items, jsonGet fields k ≠ some (JsonValue.arr raw_items)) → items = []) := by
  refine ⟨ensure_list_of_strings (jsonGet fields k),
    jsonGet_normalize_list_field fields k hk r hr, ?_, ?_, ?_⟩
  · intro x hx s hs
    obtain ⟨s', hx', hs'⟩ := ensure_list_of_strings_mem _ x hx
    rw [hx'] at hs
    injection hs with h
    exact h ▸ hs'
  · intro raw_items hraw
    rw [hraw]
    rfl
  · intro hnone
    unfold ensure_list_of_strings
    match hv : jsonGet fields k with
    | none => rfl
    | some JsonValue.null => rfl
    | some (JsonValue.bool _) => rfl
    | some (JsonValue.num _) => rfl
    | some (JsonValue.obj _) => rfl
    | some (JsonValue.str s) => by_cases h : pyLower s == "n/a" <;> simp [h]
    | some (JsonValue.arr raw) => exact absurd hv (hnone raw)

/-- C3 witness: the spec's example list field ["Build API","n/a","Deploy"]
normalizes to ["Build API","Deploy"], checked through the full cleanup. -/
theorem c3_list_field_cleanup_witness :
    ∃ items : List JsonValue,
      jsonGet [("objectives", JsonValue.arr [JsonValue.str "Build API", JsonValue.str "Deploy"]),
               ("scope_of_work", JsonValue.arr []), ("out_of_scope", JsonValue.arr []),
               ("technical_requirements", JsonValue.arr []), ("key_constraints", JsonValue.arr []),
               ("stakeholders", JsonValue.arr []), ("timeline_overview", JsonValue.arr []),
               ("deliverables", JsonValue.arr []), ("project_name", JsonValue.str "N/A"),
               ("client_name", JsonValue.str "N/A")] "objectives" = some (JsonValue.arr items) ∧
      (∀ x ∈ items, ∀ s, x = JsonValue.str s → pyLower s ≠ "n/a") ∧
      (∀ raw_items,
        jsonGet [("objectives", JsonValue.arr
            [JsonValue.str "Build API", JsonValue.str "n/a", JsonValue.str "Deploy"])] "objectives" =
          some (JsonValue.arr raw_items) →
        items = raw_items.filter c3_spec_kept) ∧
      ((∀ raw_items,
        jsonGet [("objectives", JsonValue.arr
            [JsonValue.str "Build API", JsonValue.str "n/a", JsonValue.str "Deploy"])] "objectives" ≠
          some (JsonValue.arr raw_items)) → items = []) :=
  c3_list_field_cleanup
    [("objectives", JsonValue.arr [JsonValue.str "Build API", JsonValue.str "n/a", JsonValue.str "Deploy"])]
    "objectives" (by simp [listFields])
    [("objectives", JsonValue.arr [JsonValue.str "Build API", JsonValue.str "Deploy"]),
     ("scope_of_work", JsonValue.arr []), ("out_of_scope", JsonValue.arr []),
     ("technical_requirements", JsonValue.arr []), ("key_constraints", JsonValue.arr []),
     ("stakeholders", JsonValue.arr []), ("timeline_overview", JsonValue.arr []),
     ("deliverables", JsonValue.arr []), ("project_name", JsonValue.str "N/A"),
     ("client_name", JsonValue.str "N/A")] rfl

/-- C4: for every raw deliverables value, the normalized deliverables list
keeps object elements carrying both name and description unchanged, upgrades
non-sentinel plain strings to objects with the fixed description, drops every
other element, and any non-sequence raw value yields the empty sequence. -/
theorem c4_deliverables_cleanup (fields : Dict) (r : Dict)
    (hr : data_extraction_normalize (JsonValue.obj fields) = Except.ok r) :
    jsonGet r "deliverables" =
      some (JsonValue.arr (clean_deliverables (jsonGet fields "deliverables"))) ∧
    (∀ raw_items, jsonGet fields "deliverables" = some (JsonValue.arr raw_items) →
      clean_deliverables (jsonGet fields "deliverables") = raw_items.filterMap c4_spec_repair) ∧
    ((∀ raw_items, jsonGet fields "deliverables" ≠ some (JsonValue.arr raw_items)) →
      clean_deliverables (jsonGet fields "deliverables") = []) := by
  refine ⟨jsonGet_normalize_deliverables fields r hr, ?_, ?_⟩
  · intro raw_items hraw
    rw [hraw]
    rfl
  · intro hnone
    unfold clean_deliverables
    match hv : jsonGet fields "deliverables" with
    | none => rfl
    | some JsonValue.null => rfl
    | some (JsonValue.bool _) => rfl
    | some (JsonValue.num _) => rfl
    | some (JsonValue.obj _) => rfl
    | some (JsonValue.str _) => rfl
    | some (JsonValue.arr raw) => exact absurd hv (hnone raw)

/-- C4 witness: the spec's example [{"name":"X","description":"Y"}, "Z", 42]
cleans to [{"name":"X","description":"Y"},
{"name":"Z","description":"Not detailed by AI"}] (the 42 dropped), checked
through the full cleanup. -/
theorem c4_deliverables_cleanup_witness :
    clean_deliverables (some (JsonValue.arr
      [JsonValue.obj [("name", JsonValue.str "X"), ("description", JsonValue.str "Y")],
       JsonValue.str "Z", JsonValue.num 42])) =
      [JsonValue.obj [("name", JsonValue.str "X"), ("description", JsonValue.str "Y")],
       JsonValue.obj [("name", JsonValue.str "Z"), ("description", JsonValue.str "Not detailed by AI")]] ∧
    jsonGet [("deliverables", JsonValue.arr
        [JsonValue.obj [("name", JsonValue.str "X"), ("description", JsonValue.str "Y")],
         JsonValue.obj [("name", JsonValue.str "Z"), ("description", JsonValue.str "Not detailed by AI")]]),
      ("objectives", JsonValue.arr []), ("scope_of_work", JsonValue.arr []),
      ("out_of_scope", JsonValue.arr []), ("technical_requirements", JsonValue.arr []),
      ("key_constraints", JsonValue.arr []), ("stakeholders", JsonValue.arr []),
      ("timeline_overview", JsonValue.arr []), ("project_name", JsonValue.str "N/A"),
      ("client_name", JsonValue.str "N/A")] "deliverables" =
      some (JsonValue.arr (clean_deliverables (jsonGet
        [("deliverables", JsonValue.arr
          [JsonValue.obj [("name", JsonValue.str "X"), ("description", JsonValue.str "Y")],
           JsonValue.str "Z", JsonValue.num 42])] "deliverables"))) :=
  ⟨rfl,
   (c4_deliverables_cleanup
     [("deliverables", JsonValue.arr
       [JsonValue.obj [("name", JsonValue.str "X"), ("description", JsonValue.str "Y")],
        JsonValue.str "Z", JsonValue.num 42])]
     [("deliverables", JsonValue.arr
        [JsonValue.obj [("name", JsonValue.str "X"), ("description", JsonValue.str "Y")],
         JsonValue.obj [("name", JsonValue.str "Z"), ("description", JsonValue.str "Not detailed by AI")]]),
      ("objectives", JsonValue.arr []), ("scope_of_work", JsonValue.arr []),
      ("out_of_scope", JsonValue.arr []), ("technical_requirements", JsonValue.arr []),
      ("key_constraints", JsonValue.arr []), ("stakeholders", JsonValue.arr []),
      ("timeline_overview", JsonValue.arr []), ("project_name", JsonValue.str "N/A"),
      ("client_name", JsonValue.str "N/A")] rfl).1⟩

/-- C5 counterexample: the raw scalar false is neither missing, empty, nor a
casing of "n/a", so the claim says it passes through unchanged; the code maps
it (like every Python-falsy value) to the sentinel "N/A". -/
theorem c5_counterexample :
    (data_extraction_normalize (JsonValue.obj [("project_name", JsonValue.bool false)])).map
      (fun d => jsonGet d "project_name") = Except.ok (some (JsonValue.str "N/A")) ∧
    JsonValue.str "N/A" ≠ JsonValue.bool false :=
  ⟨rfl, by simp⟩

/-- C5 amended: a scalar field becomes the sentinel "N/A" exactly when its
raw value is missing, Python-falsy (null, false, 0, empty string, empty
container), or a string equal to "n/a" case-insensitively; every truthy raw
value that is not such a string passes through unchanged (even when it is
not a string). -/
theorem c5_scalar_amended (fields : Dict) (r : Dict)
    (hr : data_extraction_normalize (JsonValue.obj fields) = Except.ok r)
    (k : String) (hk : k = "project_name" ∨ k = "client_name") :
    ((jsonGet fields k = none ∨ (∃ v, jsonGet fields k = some v ∧ truthy v = false) ∨
      (∃ s, jsonGet fields k = some (JsonValue.str s) ∧ pyLower s = "n/a")) →
      jsonGet r k = some (JsonValue.str "N/A")) ∧
    (∀ v, jsonGet fields k = some v → truthy v = true →
      (∀ s, v = JsonValue.str s → pyLower s ≠ "n/a") →
      jsonGet r k = some v) := by
  have hmain := jsonGet_normalize_scalar fields r hr k hk
  constructor
  · intro hcond
    rw [hmain]
    have hb : (pyFalsyOpt (jsonGet fields k) || isNaStringOpt (jsonGet fields k)) = true := by
      rcases hcond with h | ⟨v, hv, hfv⟩ | ⟨s, hs, hna⟩
      · simp [h, pyFalsyOpt]
      · simp [hv, pyFalsyOpt, hfv]
      · simp [hs, isNaStringOpt, hna]
    rw [hb]
    simp
  · intro v hv htr hnotna
    rw [hmain]
    have hb : (pyFalsyOpt (jsonGet fields k) || isNaStringOpt (jsonGet fields k)) = false := by
      rw [hv]
      match v, htr with
      | JsonValue.str s, htr =>
        have hna := hnotna s rfl
        simp [pyFalsyOpt, isNaStringOpt, htr, beq_iff_eq, hna]
      | JsonValue.bool b, htr => simp [pyFalsyOpt, isNaStringOpt, htr]
      | JsonValue.num n, htr => simp [pyFalsyOpt, isNaStringOpt, htr]
      | JsonValue.arr l, htr => simp [pyFalsyOpt, isNaStringOpt, htr]
      | JsonValue.obj f, htr => simp [pyFalsyOpt, isNaStringOpt, htr]
    rw [hb]
    simp [hv]

/-- C5 witness: project_name "n/a" becomes "N/A", while client_name
"Acme Rollout" passes through unchanged. -/
theorem c5_scalar_amended_witness :
    jsonGet [("project_name", JsonValue.str "N/A"), ("client_name", JsonValue.str "Acme Rollout"),
      ("objectives", JsonValue.arr []), ("scope_of_work", JsonValue.arr []),
      ("out_of_scope", JsonValue.arr []), ("technical_requirements", JsonValue.arr []),
      ("key_constraints", JsonValue.arr []), ("stakeholders", JsonValue.arr []),
      ("timeline_overview", JsonValue.arr []), ("deliverables", JsonValue.arr [])] "project_name" =
      some (JsonValue.str "N/A") ∧
    jsonGet [("project_name", JsonValue.str "N/A"), ("client_name", JsonValue.str "Acme Rollout"),
      ("objectives", JsonValue.arr []), ("scope_of_work", JsonValue.arr []),
      ("out_of_scope", JsonValue.arr []), ("technical_requirements", JsonValue.arr []),
      ("key_constraints", JsonValue.arr []), ("stakeholders", JsonValue.arr []),
      ("timeline_overview", JsonValue.arr []), ("deliverables", JsonValue.arr [])] "client_name" =
      some (JsonValue.str "Acme Rollout") :=
  ⟨(c5_scalar_amended
      [("project_name", JsonValue.str "n/a"), ("client_name", JsonValue.str "Acme Rollout")]
      [("project_name", JsonValue.str "N/A"), ("client_name", JsonValue.str "Acme Rollout"),
       ("objectives", JsonValue.arr []), ("scope_of_work", JsonValue.arr []),
       ("out_of_scope", JsonValue.arr []), ("technical_requirements", JsonValue.arr []),
       ("key_constraints", JsonValue.arr []), ("stakeholders", JsonValue.arr []),
       ("timeline_overview", JsonValue.arr []), ("deliverables", JsonValue.arr [])]
      rfl "project_name" (Or.inl rfl)).1
    (Or.inr (Or.inr ⟨"n/a", rfl, rfl⟩)),
   (c5_scalar_amended
      [("project_name", JsonValue.str "n/a"), ("client_name", JsonValue.str "Acme Rollout")]
      [("project_name", JsonValue.str "N/A"), ("client_name", JsonValue.str "Acme Rollout"),
       ("objectives", JsonValue.arr []), ("scope_of_work", JsonValue.arr []),
       ("out_of_scope", JsonValue.arr []), ("technical_requirements", JsonValue.arr []),
       ("key_constraints", JsonValue.arr []), ("stakeholders", JsonValue.arr []),
       ("timeline_overview", JsonValue.arr []), ("deliverables", JsonValue.arr [])]
      rfl "client_name" (Or.inr rfl)).2
    (JsonValue.str "Acme Rollout") rfl rfl
    (fun s hs => by cases hs; decide)⟩

/-- C8 counterexample: the empty-text guard does return an immediate error
record, but its message is "No SOW text provided for extraction.", not the
claimed "no text provided". -/
theorem c8_counterexample :
    data_extraction_agent_run "" "openai" none none (fun _ => Except.error ()) =
      [("error", JsonValue.str "No SOW text provided for extraction.")] ∧
    "No SOW text provided for extraction." ≠ "no text provided" :=
  ⟨rfl, by decide⟩

/-- C8 amended: for the empty document text, the extraction call immediately
returns the error record with message "No SOW text provided for extraction."
(an UpstreamFailure outcome), independent of the provider choice, the client
handles, and the decoder -- so the generative client is never invoked. -/
theorem c8_empty_text_amended (llm_choice : String)
    (openai_client gemini_model : Option (Except String String))
    (json_loads : String → Except Unit JsonValue) :
    data_extraction_agent_run "" llm_choice openai_client gemini_model json_loads =
      [("error", JsonValue.str "No SOW text provided for extraction.")] := rfl

/-- C1 counterexample: on the decoded object {"project_name": 42} the cleanup
succeeds but leaves project_name as the number 42, which is not a (non-empty)
string, refuting the claim that every field is populated according to its
declared type. -/
theorem c1_counterexample :
    (data_extraction_normalize (JsonValue.obj [("project_name", JsonValue.num 42)])).map
      (fun d => jsonGet d "project_name") = Except.ok (some (JsonValue.num 42)) ∧
    jsonIsStr (JsonValue.num 42) = false :=
  ⟨rfl, rfl⟩

/-- C1 amended: for every decoded object the cleanup succeeds; the seven list
fields are lists of strings never containing the sentinel, deliverables is a
list of objects carrying both name and description, and project_name and
client_name are always present and truthy -- when string-valued they are the
sentinel "N/A" or a non-empty non-"n/a" string -- but a truthy non-string raw
value passes through, so these two fields are not guaranteed to be strings. -/
theorem c1_normalize_amended (fields : Dict) :
    ∃ r : Dict,
      data_extraction_normalize (JsonValue.obj fields) = Except.ok r ∧
      (∀ k ∈ listFields, ∃ items, jsonGet r k = some (JsonValue.arr items) ∧
        ∀ x ∈ items, ∃ s, x = JsonValue.str s ∧ pyLower s ≠ "n/a") ∧
      (∃ ds, jsonGet r "deliverables" = some (JsonValue.arr ds) ∧
        ∀ x ∈ ds, ∃ f, x = JsonValue.obj f ∧ hasKey f "name" = true ∧ hasKey f "description" = true) ∧
      (∀ k, k = "project_name" ∨ k = "client_name" →
        ∃ v, jsonGet r k = some v ∧ truthy v = true ∧
          ∀ s, v = JsonValue.str s → s = "N/A" ∨ (s ≠ "" ∧ pyLower s ≠ "n/a")) := by
  obtain ⟨r, hr⟩ : ∃ r, data_extraction_normalize (JsonValue.obj fields) = Except.ok r := ⟨_, rfl⟩
  refine ⟨r, hr, ?_, ?_, ?_⟩
  · intro k hk
    exact ⟨_, jsonGet_normalize_list_field fields k hk r hr, ensure_list_of_strings_mem _⟩
  · exact ⟨_, jsonGet_normalize_deliverables fields r hr, clean_deliverables_mem _⟩
  · intro k hk
    have hmain := jsonGet_normalize_scalar fields r hr k hk
    by_cases hb : (pyFalsyOpt (jsonGet fields k) || isNaStringOpt (jsonGet fields k)) = true
    · rw [hmain, if_pos hb]
      refine ⟨JsonValue.str "N/A", rfl, by decide, ?_⟩
      intro s hs
      injection hs with h
      exact Or.inl h.symm
    · rw [Bool.not_eq_true] at hb
      have hval : jsonGet r k = jsonGet fields k := by rw [hmain, hb]; simp
      rw [Bool.or_eq_false_iff] at hb
      obtain ⟨hfal, hna⟩ := hb
      cases hv : jsonGet fields k with
      | none => rw [hv] at hfal; simp [pyFalsyOpt] at hfal
      | some v =>
        rw [hv] at hfal hna hval
        refine ⟨v, hval, ?_, ?_⟩
        · have h2 : (!truthy v) = false := by simpa [pyFalsyOpt] using hfal
          simpa using h2
        · intro s hs
          subst hs
          refine Or.inr ⟨?_, ?_⟩
          · intro h0
            rw [h0] at hfal
            simp [pyFalsyOpt, truthy] at hfal
          · intro h0
            simp [isNaStringOpt, h0] at hna

/-- C1 witness: the amended statement at the decoded object
{"project_name": 42}. -/
theorem c1_normalize_amended_witness :
    ∃ r : Dict,
      data_extraction_normalize (JsonValue.obj [("project_name", JsonValue.num 42)]) = Except.ok r ∧
      (∀ k ∈ listFields, ∃ items, jsonGet r k = some (JsonValue.arr items) ∧
        ∀ x ∈ items, ∃ s, x = JsonValue.str s ∧ pyLower s ≠ "n/a") ∧
      (∃ ds, jsonGet r "deliverables" = some (JsonValue.arr ds) ∧
        ∀ x ∈ ds, ∃ f, x = JsonValue.obj f ∧ hasKey f "name" = true ∧ hasKey f "description" = true) ∧
      (∀ k, k = "project_name" ∨ k = "client_name" →
        ∃ v, jsonGet r k = some v ∧ truthy v = true ∧
          ∀ s, v = JsonValue.str s → s = "N/A" ∨ (s ≠ "" ∧ pyLower s ≠ "n/a")) :=
  c1_normalize_amended [("project_name", JsonValue.num 42)]

/-- C2 counterexample: a backend error string '{"error":"quota exceeded"}'
does keep its error key (the caller classifies the outcome as a failure
carrying "quota exceeded", not a Success), but the code DOES run the
normalization pass over the decoded error object: the returned record also
carries all ten defaulted schema fields, refuting "does not attempt further
normalization of the decoded value". -/
theorem c2_counterexample :
    data_extraction_agent_run "Some SOW text" "openai" (some (Except.error "quota exceeded")) none
      (fun s => if s == "\x7b\"error\": \"quota exceeded\"\x7d" then
        Except.ok (JsonValue.obj [("error", JsonValue.str "quota exceeded")]) else Except.error ()) =
      [("error", JsonValue.str "quota exceeded"),
       ("objectives", JsonValue.arr []), ("scope_of_work", JsonValue.arr []),
       ("out_of_scope", JsonValue.arr []), ("technical_requirements", JsonValue.arr []),
       ("key_constraints", JsonValue.arr []), ("stakeholders", JsonValue.arr []),
       ("timeline_overview", JsonValue.arr []), ("deliverables", JsonValue.arr []),
       ("project_name", JsonValue.str "N/A"), ("client_name", JsonValue.str "N/A")] ∧
    jsonGet [("error", JsonValue.str "quota exceeded"),
       ("objectives", JsonValue.arr []), ("scope_of_work", JsonValue.arr []),
       ("out_of_scope", JsonValue.arr []), ("technical_requirements", JsonValue.arr []),
       ("key_constraints", JsonValue.arr []), ("stakeholders", JsonValue.arr []),
       ("timeline_overview", JsonValue.arr []), ("deliverables", JsonValue.arr []),
       ("project_name", JsonValue.str "N/A"), ("client_name", JsonValue.str "N/A")] "objectives" =
      some (JsonValue.arr []) :=
  ⟨rfl, rfl⟩

/-- C2 amended: when the backend call fails with message e (folded into the
JSON error string), the extraction call decodes it and runs the normalization
pass over it, which preserves the error key and adds the ten defaulted schema
fields; the returned record carries error = e and is therefore classified as
an UpstreamFailure outcome, not a Success. -/
theorem c2_error_key_amended (sow_text : String) (hsow : sow_text ≠ "")
    (e : String) (he : e ≠ "")
    (gemini_model : Option (Except String String))
    (json_loads : String → Except Unit JsonValue)
    (hdec : json_loads (json_dumps_error e) =
      Except.ok (JsonValue.obj [("error", JsonValue.str e)])) :
    ∃ r : Dict,
      data_extraction_agent_run sow_text "openai" (some (Except.error e)) gemini_model json_loads = r ∧
      jsonGet r "error" = some (JsonValue.str e) ∧
      truthyOpt (jsonGet r "error") = true ∧
      jsonGet r "objectives" = some (JsonValue.arr []) ∧
      jsonGet r "deliverables" = some (JsonValue.arr []) ∧
      jsonGet r "project_name" = some (JsonValue.str "N/A") := by
  have hb : (sow_text == "") = false := beq_eq_false_iff_ne.mpr hsow
  have hrun : data_extraction_agent_run sow_text "openai" (some (Except.error e)) gemini_model json_loads =
      data_extraction_handle_response (json_dumps_error e) (json_loads (json_dumps_error e)) := by
    unfold data_extraction_agent_run
    rw [hb]
    rfl
  obtain ⟨rn, hrn⟩ : ∃ rn,
      data_extraction_normalize (JsonValue.obj [("error", JsonValue.str e)]) = Except.ok rn :=
    ⟨_, rfl⟩
  have hhandle : data_extraction_handle_response (json_dumps_error e)
      (Except.ok (JsonValue.obj [("error", JsonValue.str e)])) = rn := by
    simp only [data_extraction_handle_response]
    rw [hrn]
  refine ⟨rn, ?_, ?_, ?_, ?_, ?_, ?_⟩
  · rw [hrun, hdec, hhandle]
  · rw [jsonGet_normalize_other _ _ hrn "error" (by decide) (by decide) (by decide) (by decide)]
    rfl
  · rw [jsonGet_normalize_other _ _ hrn "error" (by decide) (by decide) (by decide) (by decide)]
    show (e != "") = true
    simpa using he
  · rw [jsonGet_normalize_list_field _ "objectives" (by simp [listFields]) _ hrn]
    rfl
  · rw [jsonGet_normalize_deliverables _ _ hrn]
    rfl
  · rw [jsonGet_normalize_scalar _ _ hrn "project_name" (Or.inl rfl)]
    rfl

/-- C2 witness: the amended statement at the backend failure "quota exceeded"
with a concrete decoder. -/
theorem c2_error_key_amended_witness :
    ∃ r : Dict,
      data_extraction_agent_run "Other SOW text" "openai" (some (Except.error "quota exceeded")) none
        (fun s => if s == "\x7b\"error\": \"quota exceeded\"\x7d" then
          Except.ok (JsonValue.obj [("error", JsonValue.str "quota exceeded")]) else Except.error ()) = r ∧
      jsonGet r "error" = some (JsonValue.str "quota exceeded") ∧
      truthyOpt (jsonGet r "error") = true ∧
      jsonGet r "objectives" = some (JsonValue.arr []) ∧
      jsonGet r "deliverables" = some (JsonValue.arr []) ∧
      jsonGet r "project_name" = some (JsonValue.str "N/A") :=
  c2_error_key_amended "Other SOW text" (by decide) "quota exceeded" (by decide) none
    (fun s => if s == "\x7b\"error\": \"quota exceeded\"\x7d" then
      Except.ok (JsonValue.obj [("error", JsonValue.str "quota exceeded")]) else Except.error ())
    rfl

/-- C6: whenever the provider dispatch raises an error (transport, auth,
uninitialized client, or unsupported choice), the connector returns a string
rather than propagating the error -- the minimal JSON error object when JSON
output was requested, and a human-readable "Error: ..." line otherwise. -/
theorem c6_call_llm_error_as_string (messages : List (String × String))
    (response_format llm_choice : String)
    (openai_client gemini_model : Option (Except String String)) (e : String)
    (hfail : call_llm_attempt llm_choice openai_client gemini_model = Except.error e) :
    (response_format = "json_object" →
      call_llm messages response_format llm_choice openai_client gemini_model =
        json_dumps_error e) ∧
    (response_format ≠ "json_object" →
      call_llm messages response_format llm_choice openai_client gemini_model =
        "Error: " ++ e) := by
  unfold call_llm
  rw [hfail]
  constructor
  · intro h
    subst h
    rfl
  · intro h
    have hb : (response_format == "json_object") = false := beq_eq_false_iff_ne.mpr h
    rw [hb]
    rfl

/-- C6 witness: with an uninitialized OpenAI client the raised ValueError is
folded into the JSON error object under JSON format, and into an
"Error: ..." line under text format. -/
theorem c6_call_llm_error_as_string_witness :
    call_llm [] "json_object" "openai" none none =
      "\x7b\"error\": \"OpenAI client not initialized. Call initialize_llm_clients first.\"\x7d" ∧
    call_llm [] "text" "openai" none none =
      "Error: OpenAI client not initialized. Call initialize_llm_clients first." :=
  ⟨((c6_call_llm_error_as_string [] "json_object" "openai" none none
      "OpenAI client not initialized. Call initialize_llm_clients first." rfl).1 rfl).trans rfl,
   ((c6_call_llm_error_as_string [] "text" "openai" none none
      "OpenAI client not initialized. Call initialize_llm_clients first." rfl).2 (by decide)).trans rfl⟩

/-- C7: the failed-input check is the same in both derived-artifact
generators, and on every failed extraction input (absent document, empty
dict, or truthy error marker) each generator returns its fixed refusal
message, independently of the provider choice and both client handles --
so the generative backend is never invoked. -/
theorem c7_generator_short_circuit :
    (∀ d : Option Dict, analysis_input_check d = proposal_input_check d) ∧
    (∀ d : Option Dict, FailedExtraction d →
      ∀ (llm_choice : String) (openai_client gemini_model : Option (Except String String)),
        analysis_agent_run d llm_choice openai_client gemini_model =
          "Cannot summarize: Invalid or missing SOW structured data." ∧
        proposal_generation_agent_run d llm_choice openai_client gemini_model =
          "Cannot draft proposal: Invalid or missing SOW structured data.") := by
  constructor
  · intro d
    cases d <;> rfl
  · intro d hd llm_choice openai_client gemini_model
    have hcheck : analysis_input_check d = true := by
      rcases hd with rfl | ⟨dd, rfl, hdd⟩
      · rfl
      · rcases hdd with rfl | ⟨v, hv, htv⟩
        · rfl
        · simp [analysis_input_check, truthyOpt, hv, htv]
    have hcheck' : proposal_input_check d = true := by
      rw [show proposal_input_check d = analysis_input_check d from by cases d <;> rfl]
      exact hcheck
    constructor
    · unfold analysis_agent_run
      rw [hcheck]
      rfl
    · unfold proposal_generation_agent_run
      rw [hcheck']
      rfl

/-- C7 witness: an absent document and an error-marked document are both
refused by both generators. -/
theorem c7_generator_short_circuit_witness :
    analysis_input_check none = proposal_input_check none ∧
    analysis_agent_run none "openai" none none =
      "Cannot summarize: Invalid or missing SOW structured data." ∧
    proposal_generation_agent_run (some [("error", JsonValue.str "Failed to parse LLM response as JSON. Raw LLM output: garbage")]) "openai" none none =
      "Cannot draft proposal: Invalid or missing SOW structured data." :=
  ⟨c7_generator_short_circuit.1 none,
   (c7_generator_short_circuit.2 none (Or.inl rfl) "openai" none none).1,
   (c7_generator_short_circuit.2
     (some [("error", JsonValue.str "Failed to parse LLM response as JSON. Raw LLM output: garbage")])
     (Or.inr ⟨_, rfl, Or.inr ⟨_, rfl, rfl⟩⟩) "openai" none none).2⟩

/-- C9: normalization is idempotent on canonical data -- re-feeding a
document that already conforms to the ten-field schema (sentinel and
empty-list conventions included) through the cleanup returns it unchanged. -/
theorem c9_normalize_idempotent (d : Dict) (h : isCanonicalDocument d = true) :
    data_extraction_normalize (JsonValue.obj d) = Except.ok d := by
  unfold isCanonicalDocument at h
  simp only [Bool.and_eq_true] at h
  obtain ⟨⟨⟨hlist, hdel⟩, hpn⟩, hcn⟩ := h
  rw [List.all_eq_true] at hlist
  rw [data_extraction_normalize_obj]
  rw [applyListCleanup_canonical d hlist]
  rw [canonical_deliverables_step d hdel]
  rw [canonical_scalar_step d "project_name" hpn]
  rw [canonical_scalar_step d "client_name" hcn]

/-- C9 witness: a concrete canonical document (with a duplicate list entry, a
sentinel scalar, and a populated deliverable) is a fixed point of the
cleanup. -/
theorem c9_normalize_idempotent_witness :
    isCanonicalDocument
      [("project_name", JsonValue.str "Acme Rollout"), ("client_name", JsonValue.str "N/A"),
       ("objectives", JsonValue.arr [JsonValue.str "Build API", JsonValue.str "Build API"]),
       ("scope_of_work", JsonValue.arr []), ("out_of_scope", JsonValue.arr []),
       ("deliverables", JsonValue.arr
         [JsonValue.obj [("name", JsonValue.str "Report"), ("description", JsonValue.str "Summary")]]),
       ("technical_requirements", JsonValue.arr []), ("key_constraints", JsonValue.arr []),
       ("stakeholders", JsonValue.arr []), ("timeline_overview", JsonValue.arr [])] = true ∧
    data_extraction_normalize (JsonValue.obj
      [("project_name", JsonValue.str "Acme Rollout"), ("client_name", JsonValue.str "N/A"),
       ("objectives", JsonValue.arr [JsonValue.str "Build API", JsonValue.str "Build API"]),
       ("scope_of_work", JsonValue.arr []), ("out_of_scope", JsonValue.arr []),
       ("deliverables", JsonValue.arr
         [JsonValue.obj [("name", JsonValue.str "Report"), ("description", JsonValue.str "Summary")]]),
       ("technical_requirements", JsonValue.arr []), ("key_constraints", JsonValue.arr []),
       ("stakeholders", JsonValue.arr []), ("timeline_overview", JsonValue.arr [])]) =
      Except.ok
      [("project_name", JsonValue.str "Acme Rollout"), ("client_name", JsonValue.str "N/A"),
       ("objectives", JsonValue.arr [JsonValue.str "Build API", JsonValue.str "Build API"]),
       ("scope_of_work", JsonValue.arr []), ("out_of_scope", JsonValue.arr []),
       ("deliverables", JsonValue.arr
         [JsonValue.obj [("name", JsonValue.str "Report"), ("description", JsonValue.str "Summary")]]),
       ("technical_requirements", JsonValue.arr []), ("key_constraints", JsonValue.arr []),
       ("stakeholders", JsonValue.arr []), ("timeline_overview", JsonValue.arr [])] :=
  ⟨by decide,
   c9_normalize_idempotent
     [("project_name", JsonValue.str "Acme Rollout"), ("client_name", JsonValue.str "N/A"),
      ("objectives", JsonValue.arr [JsonValue.str "Build API", JsonValue.str "Build API"]),
      ("scope_of_work", JsonValue.arr []), ("out_of_scope", JsonValue.arr []),
      ("deliverables", JsonValue.arr
        [JsonValue.obj [("name", JsonValue.str "Report"), ("description", JsonValue.str "Summary")]]),
      ("technical_requirements", JsonValue.arr []), ("key_constraints", JsonValue.arr []),
      ("stakeholders", JsonValue.arr []), ("timeline_overview", JsonValue.arr [])]
     (by decide)⟩

/-- C10: when the backend response decodes as valid JSON whose top-level
value is not an object (array, number, string, boolean, or null), the
extraction call returns the error record whose message begins
"An unexpected error occurred" -- not a decode-failure record and not a
Success: the attribute access on the non-dict decoded value raises. -/
theorem c10_non_object_decode (sow_text : String) (hsow : sow_text ≠ "")
    (llm_choice : String) (openai_client gemini_model : Option (Except String String))
    (json_loads : String → Except Unit JsonValue) (v : JsonValue)
    (hnotobj : ∀ f, v ≠ JsonValue.obj f)
    (hdec : json_loads (call_llm (data_extraction_messages (pySlice sow_text 15000)) "json_object"
      llm_choice openai_client gemini_model) = Except.ok v) :
    data_extraction_agent_run sow_text llm_choice openai_client gemini_model json_loads =
      [("error", JsonValue.str ("An unexpected error occurred: " ++
        ("'" ++ pyTypeName v ++ "' object has no attribute 'get'")))] ∧
    (∃ rest, ("An unexpected error occurred: " ++
        ("'" ++ pyTypeName v ++ "' object has no attribute 'get'")) =
      "An unexpected error occurred" ++ rest) ∧
    truthy (JsonValue.str ("An unexpected error occurred: " ++
      ("'" ++ pyTypeName v ++ "' object has no attribute 'get'"))) = true := by
  have hb : (sow_text == "") = false := beq_eq_false_iff_ne.mpr hsow
  have hrun : data_extraction_agent_run sow_text llm_choice openai_client gemini_model json_loads =
      data_extraction_handle_response
        (call_llm (data_extraction_messages (pySlice sow_text 15000)) "json_object"
          llm_choice openai_client gemini_model)
        (json_loads (call_llm (data_extraction_messages (pySlice sow_text 15000)) "json_object"
          llm_choice openai_client gemini_model)) := by
    unfold data_extraction_agent_run
    rw [hb]
    rfl
  refine ⟨?_, ?_, ?_⟩
  · rw [hrun, hdec]
    simp only [data_extraction_handle_response]
    match v, hnotobj with
    | JsonValue.null, _ => rfl
    | JsonValue.bool b, _ => rfl
    | JsonValue.num n, _ => rfl
    | JsonValue.str s, _ => rfl
    | JsonValue.arr items, _ => rfl
    | JsonValue.obj f, hnotobj => exact absurd rfl (hnotobj f)
  · refine ⟨": " ++ ("'" ++ pyTypeName v ++ "' object has no attribute 'get'"), ?_⟩
    rw [show ("An unexpected error occurred: " : String) =
      "An unexpected error occurred" ++ ": " from rfl]
    simp only [string_append_assoc]
  · match v with
    | JsonValue.null => rfl
    | JsonValue.bool b => rfl
    | JsonValue.num n => rfl
    | JsonValue.str s => rfl
    | JsonValue.arr items => rfl
    | JsonValue.obj f => rfl

/-- C10 witness: a backend response decoding to the JSON array [1, 2] yields
the "An unexpected error occurred" record (AttributeError on a list), not a
decode failure and not a Success. -/
theorem c10_non_object_decode_witness :
    data_extraction_agent_run "Some text" "openai" (some (Except.ok "[1, 2]")) none
      (fun s => if s == "[1, 2]" then
        Except.ok (JsonValue.arr [JsonValue.num 1, JsonValue.num 2]) else Except.error ()) =
      [("error", JsonValue.str "An unexpected error occurred: 'list' object has no attribute 'get'")] :=
  ((c10_non_object_decode "Some text" (by decide) "openai" (some (Except.ok "[1, 2]")) none
      (fun s => if s == "[1, 2]" then
        Except.ok (JsonValue.arr [JsonValue.num 1, JsonValue.num 2]) else Except.error ())
      (JsonValue.arr [JsonValue.num 1, JsonValue.num 2])
      (fun f h => by cases h) rfl).1).trans rfl

end SowToProposal
